import Mathlib

/-!
Verification of the PBS job monitor & notifier.

Shallow embedding of the repository's Python sources:
* `mqsub.py` — `parse_job_id`
* `monitor.py` — `JobMonitor.monitor_job`, `_get_job_status`, `_parse_job_name`,
  `_parse_job_status`, `_get_exit_status`, `_send_notification`
* `config_loader.py` — `ConfigurationLoader._load_config`, `_validate_config`,
  the `pbs_username` / `poll_interval` properties
* `notifier.py` — `EmailNotifier.send_notification`, `_create_message`

External effects (subprocess output, SMTP transport) are passed in as explicit
inputs: each status query is represented by an `Option String` (`none` = the
query command timed out or raised, `some out` = the command produced stdout
`out`), the trace/history query output likewise, and the SMTP transport by an
`Except` value (`Except.error` = an exception raised during transmission).
-/

namespace PBSMonitor

/-! ### Python string primitives -/

/-- The whitespace characters stripped/split by Python's `str.strip()` and
`str.split()` (ASCII subset). -/
def pyIsSpace (c : Char) : Bool :=
  c == ' ' || c == '\t' || c == '\n' || c == '\r' || c == '\x0b' || c == '\x0c'

/-- Drop characters satisfying `p` from both ends of a character list. -/
def stripWhile (p : Char → Bool) (l : List Char) : List Char :=
  ((l.dropWhile p).reverse.dropWhile p).reverse

/-- Python `s.strip()`. -/
def pyStrip (s : String) : String :=
  String.mk (stripWhile pyIsSpace s.data)

/-- Python `s.strip('"')`. -/
def pyStripQuote (s : String) : String :=
  String.mk (stripWhile (fun c => c == '"') s.data)

/-- Does `hay` begin with `needle`?  (Python `str.startswith`, on lists.) -/
def beginsMatch : List Char → List Char → Bool
  | [], _ => true
  | _ :: _, [] => false
  | n :: ns, h :: hs => n == h && beginsMatch ns hs

/-- Python `s.startswith(pre)`. -/
def pyStartsWith (s pre : String) : Bool :=
  beginsMatch pre.data s.data

/-- Does `needle` occur as a contiguous run inside `hay`?  (Python `in`.) -/
def hasSub (needle : List Char) : List Char → Bool
  | [] => needle.isEmpty
  | h :: hs => beginsMatch needle (h :: hs) || hasSub needle hs

/-- Python `needle in hay` for strings. -/
def occursWithin (needle hay : String) : Bool :=
  hasSub needle.data hay.data

/-- Python `s.split(sep)` on character lists: split at every occurrence of
`sep`, keeping empty pieces (`[] ↦ [[]]`, like Python's `''.split(c) == ['']`). -/
def splitOnChar (sep : Char) : List Char → List (List Char)
  | [] => [[]]
  | c :: rest =>
    if c == sep then [] :: splitOnChar sep rest
    else
      match splitOnChar sep rest with
      | [] => [[c]]
      | piece :: pieces => (c :: piece) :: pieces

/-- Python `s.split(sep)` for a one-character separator. -/
def pySplit (s : String) (sep : Char) : List String :=
  (splitOnChar sep s.data).map String.mk

/-- Split at every character satisfying `p`, keeping empty pieces. -/
def splitOnPred (p : Char → Bool) : List Char → List (List Char)
  | [] => [[]]
  | c :: rest =>
    if p c then [] :: splitOnPred p rest
    else
      match splitOnPred p rest with
      | [] => [[c]]
      | piece :: pieces => (c :: piece) :: pieces

/-- Python `s.split()` (no separator): split on whitespace runs, dropping
empty pieces. -/
def pySplitWs (s : String) : List String :=
  ((splitOnPred pyIsSpace s.data).filter (fun piece => !piece.isEmpty)).map String.mk

/-- The characters after the first occurrence of `sep` (`[]` if absent).
Models Python `s.split(sep, 1)[1]` at its guarded call sites, where `sep` is
always present in `s`. -/
def afterFirst (sep : Char) : List Char → List Char
  | [] => []
  | c :: rest => if c == sep then rest else afterFirst sep rest

/-! ### `mqsub.parse_job_id` -/

/-- `mqsub.parse_job_id` (mqsub.py lines 12–34): strip the qsub output; empty
output raises `ValueError("qsub output is empty")`; otherwise return
`output.split('.')[0]`, the segment left of the first dot. -/
def parse_job_id (qsub_output : String) : Except String String :=
  let stripped := pyStrip qsub_output
  if stripped.data.isEmpty then Except.error "qsub output is empty"
  else Except.ok (String.mk ((splitOnChar '.' stripped.data).headD []))

/-! ### `JobMonitor` status/name parsing -/

/-- The guard `line.strip().startswith('Job_Name = ')` of
`JobMonitor._parse_job_name` (monitor.py line 111). -/
def nameLineMatch (line : String) : Bool :=
  pyStartsWith (pyStrip line) "Job_Name = "

/-- The guard `line.strip().startswith('job_state = ')` of
`JobMonitor._parse_job_status` (monitor.py line 126). -/
def statusLineMatch (line : String) : Bool :=
  pyStartsWith (pyStrip line) "job_state = "

/-- The extraction `line.split('=', 1)[1].strip().strip('"')` applied to a
matching line (monitor.py lines 112 and 127). -/
def lineValue (line : String) : String :=
  pyStripQuote (pyStrip (String.mk (afterFirst '=' line.data)))

/-- `JobMonitor._parse_job_name` (monitor.py lines 100–113): return the value
of the first line whose stripped form starts with `Job_Name = `, else `None`. -/
def parse_job_name (output : String) : Option String :=
  (pySplit output '\n').findSome? (fun line =>
    if nameLineMatch line then some (lineValue line) else none)

/-- `JobMonitor._parse_job_status` (monitor.py lines 115–130): return the value
of the first line whose stripped form starts with `job_state = `, else `None`. -/
def parse_job_status (output : String) : Option String :=
  (pySplit output '\n').findSome? (fun line =>
    if statusLineMatch line then some (lineValue line) else none)

/-- `JobMonitor._get_job_status` (monitor.py lines 71–98): a timeout or any
exception from the qstat subprocess yields `(None, None)`; otherwise the name
and status are parsed from the captured stdout.  The subprocess outcome is the
input: `none` = exception/timeout, `some out` = stdout `out`. -/
def get_job_status (query : Option String) : Option String × Option String :=
  match query with
  | none => (none, none)
  | some out => (parse_job_name out, parse_job_status out)

/-! ### `JobMonitor._get_exit_status` -/

/-- The scanning loop of `JobMonitor._get_exit_status` (monitor.py lines
154–158): for each line containing `Exit_status`, split it on whitespace and
return the third field when there are at least three; otherwise keep
scanning. -/
def exitStatusFromLines : List String → Option String
  | [] => none
  | line :: rest =>
    if hasSub "Exit_status".data line.data then
      let parts := pySplitWs (pyStrip line)
      if parts.length ≥ 3 then some (parts.getD 2 "") else exitStatusFromLines rest
    else exitStatusFromLines rest

/-- `JobMonitor._get_exit_status` (monitor.py lines 132–159).  The tracejob
subprocess outcome is the input: `none` = any exception (incl. timeout),
`some stdout` = captured stdout.  When the stdout contains `Exit_status`, the
lines are scanned; otherwise (or on exception) the result is `None`. -/
def get_exit_status (trace_output : Option String) : Option String :=
  match trace_output with
  | none => none
  | some stdout =>
    if hasSub "Exit_status".data stdout.data then
      exitStatusFromLines (pySplit stdout '\n')
    else none

/-! ### `JobMonitor.monitor_job` -/

/-- Observable actions of one monitoring run. -/
inductive MEvent
  | sleep (seconds : Int)
  | notify (jobId : String) (jobName : Option String) (exitStatus : Option String)
  | log (msg : String)
deriving DecidableEq

/-- The log line printed by `JobMonitor._send_notification` (monitor.py lines
178–182), depending on the boolean the notifier returned. -/
def send_notification_log (jobId : String) (success : Bool) : String :=
  if success then "Notification sent for job " ++ jobId
  else "Failed to send notification for job " ++ jobId

/-- The `while True` loop of `JobMonitor.monitor_job` (monitor.py lines
55–69).  Each list element is one poll's qstat outcome.  On
`status == 'C' or (job_enqueued and status is None)` the loop queries the exit
status, makes the single notification send attempt (logging its outcome) and
breaks; otherwise it sleeps `poll_interval` seconds and polls again.  `none`
means the supplied trace ended while the loop was still polling. -/
def monitorLoop (jobId : String) (pollInterval : Int) (jobEnqueued : Bool)
    (traceOut : Option String) (sendOk : Bool) :
    List (Option String) → Option (List MEvent)
  | [] => none
  | q :: rest =>
    let st := get_job_status q
    if st.2 = some "C" ∨ (jobEnqueued = true ∧ st.2 = none) then
      some [MEvent.notify jobId st.1 (get_exit_status traceOut),
            MEvent.log (send_notification_log jobId sendOk)]
    else
      (monitorLoop jobId pollInterval jobEnqueued traceOut sendOk rest).map
        (fun evs => MEvent.sleep pollInterval :: evs)

/-- `JobMonitor.monitor_job` (monitor.py lines 38–69).  `polls` supplies the
qstat outcome of the initial check followed by those of the loop iterations;
`traceOut` the tracejob outcome; `sendOk` the notifier's boolean.  If the
initial status is `None` the monitor returns at once (`some []`, no events);
otherwise `job_enqueued` is `True` and the loop runs. -/
def monitor_job (jobId : String) (pollInterval : Int) (traceOut : Option String)
    (sendOk : Bool) (polls : List (Option String)) : Option (List MEvent) :=
  match polls with
  | [] => none
  | q :: rest =>
    let initial := get_job_status q
    if initial.2 = none then some []
    else monitorLoop jobId pollInterval true traceOut sendOk rest

/-- Is an event a notification send attempt? -/
def isNotifyEvent : MEvent → Bool
  | MEvent.notify _ _ _ => true
  | _ => false

/-- Number of notification send attempts in a monitoring run's event trace. -/
def notifyCount (r : Option (List MEvent)) : Nat :=
  (r.getD []).countP isNotifyEvent

/-- The loop condition of monitor.py line 62 evaluated with
`job_enqueued = True` (its value throughout the loop): the poll is terminal
iff the status is `'C'` or absent. -/
def IsTerminalStatus (status : Option String) : Prop :=
  status = some "C" ∨ status = none

instance (status : Option String) : Decidable (IsTerminalStatus status) := by
  unfold IsTerminalStatus; infer_instance

/-! ### `ConfigurationLoader` -/

/-- A JSON scalar as it appears in the configuration file. -/
inductive JVal
  | str (s : String)
  | num (n : Int)
deriving DecidableEq

/-- `ConfigurationLoader.DEFAULT_CONFIG` (config_loader.py lines 24–27). -/
def DEFAULT_CONFIG : List (String × JVal) :=
  [("pbs_username", JVal.str "zpzheng"), ("poll_interval", JVal.num 60)]

/-- `ConfigurationLoader.REQUIRED_PARAMS` (config_loader.py lines 30–36). -/
def REQUIRED_PARAMS : List String :=
  ["smtp_server", "smtp_port", "smtp_user", "smtp_password", "recipient_email"]

/-- Python `dict` lookup on an association list (first binding wins). -/
def dictGet (cfg : List (String × JVal)) (key : String) : Option JVal :=
  (cfg.find? (fun kv => kv.1 == key)).map (fun kv => kv.2)

/-- Python `', '.join(l)`. -/
def joinComma : List String → String
  | [] => ""
  | [x] => x
  | x :: rest => x ++ ", " ++ joinComma rest

/-- The `merged_config` local of `ConfigurationLoader._load_config`
(config_loader.py lines 78–79): `DEFAULT_CONFIG.copy()` then
`update(loaded_config)` — loaded keys override default keys. -/
def mergedConfig (loaded : List (String × JVal)) : List (String × JVal) :=
  (DEFAULT_CONFIG.filter (fun kv => (dictGet loaded kv.1).isNone)) ++ loaded

/-- The `missing_params` local of `ConfigurationLoader._validate_config`
(config_loader.py lines 96–98): the required parameters absent from the
merged config. -/
def missingParams (loaded : List (String × JVal)) : List String :=
  REQUIRED_PARAMS.filter (fun param => (dictGet (mergedConfig loaded) param).isNone)

/-- `ConfigurationLoader._load_config` from the parsed JSON object onward
(config_loader.py lines 77–84 and `_validate_config`, lines 86–104): merge the
defaults with the loaded dict (loaded keys win), collect the required
parameters missing from the merged dict, and raise a `ConfigurationError`
naming them all if any, else return the merged dict.  The file-read and
JSON-decode steps are external; `loaded` is the decoded object. -/
def load_config (loaded : List (String × JVal)) : Except String (List (String × JVal)) :=
  if (missingParams loaded).isEmpty then Except.ok (mergedConfig loaded)
  else Except.error
    ("Missing required configuration parameters: " ++ joinComma (missingParams loaded))

/-- Python `int(...)` on a JSON scalar: an integer stays itself, a string is
parsed (`None` = `ValueError`). -/
def pyInt : JVal → Option Int
  | JVal.num n => some n
  | JVal.str s => s.toInt?

/-- The `pbs_username` property (config_loader.py lines 119–126):
`config.get("pbs_username", DEFAULT_CONFIG["pbs_username"])`. -/
def pbs_username (cfg : List (String × JVal)) : JVal :=
  (dictGet cfg "pbs_username").getD (JVal.str "zpzheng")

/-- The `poll_interval` property (config_loader.py lines 173–180):
`int(config.get("poll_interval", DEFAULT_CONFIG["poll_interval"]))`. -/
def poll_interval (cfg : List (String × JVal)) : Option Int :=
  pyInt ((dictGet cfg "poll_interval").getD (JVal.num 60))

/-! ### `EmailNotifier` -/

/-- `EmailNotifier.send_notification` (notifier.py lines 41–69), at the point
where the message has been built: the SMTP transmission either returns a
boolean (`Except.ok`) or raises (`Except.error`); the `try/except` converts
every raised exception into a logged failure and the return value `False`. -/
def send_notification (transport : Except String Bool) : Bool :=
  match transport with
  | Except.ok result => result
  | Except.error _ => false

/-- The `job_name_str = job_name if job_name else "Unknown"` of
`EmailNotifier._create_message` (notifier.py line 91); Python truthiness makes
the empty string fall back to `"Unknown"` as well. -/
def jobNameDisplay (jobName : Option String) : String :=
  match jobName with
  | none => "Unknown"
  | some s => if s.isEmpty then "Unknown" else s

/-- The subject line built by `EmailNotifier._create_message`
(notifier.py line 92). -/
def messageSubject (jobId : String) (jobName : Option String) : String :=
  "PBS Job Completed: " ++ jobNameDisplay jobName ++ " (Job ID: " ++ jobId ++ ")"

/-! ## Helper lemmas -/

theorem strData_append (s t : String) : (s ++ t).data = s.data ++ t.data := rfl

theorem strMk_data (s : String) : String.mk s.data = s := rfl

theorem findSome?_guard (p : String → Bool) (f : String → String) (l : List String) :
    (l.findSome? (fun x => if p x then some (f x) else none)) = (l.find? p).map f := by
  induction l with
  | nil => rfl
  | cons a as ih =>
    by_cases h : p a <;>
      simp [List.findSome?_cons, List.find?_cons, h, ih]

/-! ## C6: status/name parsing contract -/

/-- C6: for every scheduler output string, status parsing returns the value of
the first line matching `job_state = <code>` and name parsing the value of the
first `Job_Name = "<name>"` line (quotes stripped by `lineValue`); when no
line matches, `List.find?` is `none` and so is the parse result — no error is
raised, the functions are total. -/
theorem parsing_first_matching_line (output : String) :
    parse_job_status output
        = ((pySplit output '\n').find? statusLineMatch).map lineValue
    ∧ parse_job_name output
        = ((pySplit output '\n').find? nameLineMatch).map lineValue :=
  ⟨findSome?_guard statusLineMatch lineValue (pySplit output '\n'),
   findSome?_guard nameLineMatch lineValue (pySplit output '\n')⟩

/-- Witness for C6 at a concrete qstat dump: the first matching lines win and
quotes are stripped; a dump without matching lines parses to `none`. -/
theorem parsing_first_matching_line_witness :
    parse_job_status "Job Id: 7\n    Job_Name = \"myjob\"\n    job_state = R\n    job_state = C\n"
        = some "R"
    ∧ parse_job_name "Job Id: 7\n    Job_Name = \"myjob\"\n    job_state = R\n    job_state = C\n"
        = some "myjob"
    ∧ parse_job_status "no match" = none := by
  have h1 := parsing_first_matching_line
    "Job Id: 7\n    Job_Name = \"myjob\"\n    job_state = R\n    job_state = C\n"
  have h2 := parsing_first_matching_line "no match"
  exact ⟨h1.1.trans (by decide), h1.2.trans (by decide), h2.1.trans (by decide)⟩

/-! ## C9: the notifier never propagates transport exceptions -/

/-- C9: `send_notification` is a total boolean-valued function of the
transport outcome: a raised transport exception is caught and reported as the
return value `False`, and a normal transport return is passed through —
no exception reaches the caller. -/
theorem send_notification_no_propagation (e : String) (b : Bool) :
    send_notification (Except.error e) = false
    ∧ send_notification (Except.ok b) = b :=
  ⟨rfl, rfl⟩

/-- Witness for C9 at concrete transport outcomes. -/
theorem send_notification_no_propagation_witness :
    send_notification (Except.error "SMTPAuthenticationError") = false
    ∧ send_notification (Except.ok true) = true :=
  send_notification_no_propagation "SMTPAuthenticationError" true

/-! ## C5: job-id parsing -/

theorem dropWhile_append_cons_of_neg {p : Char → Bool} {c : Char} (hc : p c = false)
    (xs ys : List Char) :
    List.dropWhile p (xs ++ c :: ys) = List.dropWhile p xs ++ c :: ys := by
  induction xs with
  | nil => simp [List.dropWhile_cons, hc]
  | cons a as ih =>
    by_cases h : p a <;> simp [List.dropWhile_cons, h, ih]

theorem takeWhile_ne_append_cons {c : Char} (xs ys : List Char)
    (hxs : ∀ x ∈ xs, x ≠ c) :
    List.takeWhile (fun x => x != c) (xs ++ c :: ys) = xs := by
  induction xs with
  | nil => simp [List.takeWhile_cons]
  | cons a as ih =>
    have ha : (a != c) = true := bne_iff_ne.mpr (hxs a (by simp))
    simp only [List.cons_append, List.takeWhile_cons, ha, if_true]
    rw [ih (fun x hx => hxs x (by simp [hx]))]

theorem splitOnChar_ne_nil (sep : Char) (l : List Char) : splitOnChar sep l ≠ [] := by
  induction l with
  | nil => simp [splitOnChar]
  | cons c rest ih =>
    cases h : c == sep with
    | true => simp [splitOnChar, h]
    | false =>
      simp only [splitOnChar, h, Bool.false_eq_true, if_false]
      cases hs : splitOnChar sep rest with
      | nil => simp
      | cons piece pieces => simp

theorem splitOnChar_headD (sep : Char) (l : List Char) :
    (splitOnChar sep l).headD [] = l.takeWhile (fun x => x != sep) := by
  induction l with
  | nil => rfl
  | cons c rest ih =>
    cases h : c == sep with
    | true =>
      have hc : c = sep := eq_of_beq h
      simp [splitOnChar, h, List.takeWhile_cons, hc]
    | false =>
      simp only [splitOnChar, h, Bool.false_eq_true, if_false]
      cases hs : splitOnChar sep rest with
      | nil => exact absurd hs (splitOnChar_ne_nil sep rest)
      | cons piece pieces =>
        rw [hs] at ih
        simp only [List.headD_cons] at ih
        simp [List.takeWhile_cons, bne, h, ih]

theorem pyStrip_sandwich (a b : String) (ha : a.data ≠ [])
    (hsp : ∀ x ∈ a.data, pyIsSpace x = false) :
    (pyStrip (a ++ "." ++ b)).data
      = a.data ++ '.' :: (List.dropWhile pyIsSpace b.data.reverse).reverse := by
  have hdata : (a ++ "." ++ b).data = a.data ++ '.' :: b.data := by
    rw [strData_append, strData_append, List.append_assoc]
    rfl
  obtain ⟨c, cs, hcs⟩ : ∃ c cs, a.data = c :: cs := by
    cases hd : a.data with
    | nil => exact absurd hd ha
    | cons c cs => exact ⟨c, cs, rfl⟩
  have hfront : List.dropWhile pyIsSpace (a.data ++ '.' :: b.data)
      = a.data ++ '.' :: b.data := by
    rw [hcs, List.cons_append, List.dropWhile_cons,
        hsp c (by rw [hcs]; exact List.mem_cons_self c cs)]
    simp
  have hdot : pyIsSpace '.' = false := rfl
  show (stripWhile pyIsSpace (a ++ "." ++ b).data) = _
  rw [hdata]
  unfold stripWhile
  rw [hfront, List.reverse_append, List.reverse_cons,
      List.append_assoc, List.singleton_append,
      dropWhile_append_cons_of_neg hdot, List.reverse_append, List.reverse_cons,
      List.reverse_reverse]
  simp

/-- C5: `parse_job_id` strips the submit command's output and keeps the
segment left of the first `.`: the two spec vectors parse to `12345`, empty
input raises `ValueError("qsub output is empty")`, and in general a dot-free,
whitespace-free, nonempty left segment `a` is returned unchanged from
`a ++ "." ++ b`. -/
theorem parse_job_id_spec :
    parse_job_id "12345.server1" = Except.ok "12345"
    ∧ parse_job_id "12345" = Except.ok "12345"
    ∧ parse_job_id "" = Except.error "qsub output is empty"
    ∧ (∀ a b : String, a.data ≠ [] →
        (∀ x ∈ a.data, pyIsSpace x = false ∧ x ≠ '.') →
        parse_job_id (a ++ "." ++ b) = Except.ok a) := by
  refine ⟨rfl, rfl, rfl, ?_⟩
  intro a b ha hx
  have hstrip := pyStrip_sandwich a b ha (fun x hm => (hx x hm).1)
  have hne : (pyStrip (a ++ "." ++ b)).data.isEmpty = false := by
    rw [hstrip]
    cases hd : a.data ++ '.' :: (List.dropWhile pyIsSpace b.data.reverse).reverse with
    | nil => simp at hd
    | cons y ys => rfl
  have hdots : ∀ x ∈ a.data, x ≠ '.' := fun x hm => (hx x hm).2
  simp only [parse_job_id, hne, Bool.false_eq_true, if_false]
  rw [splitOnChar_headD, hstrip, takeWhile_ne_append_cons a.data _ hdots, strMk_data]

/-- Witness for C5's general conjunct at a concrete site-suffixed id. -/
theorem parse_job_id_spec_witness :
    parse_job_id ("98765" ++ "." ++ "clusterhead") = Except.ok "98765" :=
  parse_job_id_spec.2.2.2 "98765" "clusterhead" (by decide) (by decide)

/-! ## Monitor loop characterization -/

theorem monitorLoop_none (jobId : String) (pollInterval : Int) (traceOut : Option String)
    (sendOk : Bool) (rest : List (Option String))
    (h : ∀ q ∈ rest, ¬ IsTerminalStatus (get_job_status q).2) :
    monitorLoop jobId pollInterval true traceOut sendOk rest = none := by
  induction rest with
  | nil => rfl
  | cons q rest ih =>
    have hq := h q (List.mem_cons_self q rest)
    simp only [monitorLoop]
    split
    · next hc =>
      rcases hc with h1 | ⟨-, h2⟩
      · exact absurd (Or.inl h1) hq
      · exact absurd (Or.inr h2) hq
    · rw [ih (fun x hx => h x (List.mem_cons_of_mem q hx))]
      rfl

theorem monitorLoop_terminal (jobId : String) (pollInterval : Int) (traceOut : Option String)
    (sendOk : Bool) (pre : List (Option String)) (qt : Option String)
    (post : List (Option String))
    (hpre : ∀ q ∈ pre, ¬ IsTerminalStatus (get_job_status q).2)
    (hqt : IsTerminalStatus (get_job_status qt).2) :
    monitorLoop jobId pollInterval true traceOut sendOk (pre ++ qt :: post)
      = some (pre.map (fun _ => MEvent.sleep pollInterval)
          ++ [MEvent.notify jobId (get_job_status qt).1 (get_exit_status traceOut),
              MEvent.log (send_notification_log jobId sendOk)]) := by
  induction pre with
  | nil =>
    simp only [List.nil_append, monitorLoop]
    split
    · simp
    · next hc =>
      rcases hqt with h1 | h2
      · exact absurd (Or.inl h1) hc
      · exact absurd (Or.inr ⟨trivial, h2⟩) hc
  | cons q pre ih =>
    have hq := hpre q (List.mem_cons_self q pre)
    simp only [List.cons_append, monitorLoop]
    split
    · next hc =>
      rcases hc with h1 | ⟨-, h2⟩
      · exact absurd (Or.inl h1) hq
      · exact absurd (Or.inr h2) hq
    · simp only [List.append_eq]
      rw [ih (fun x hx => hpre x (List.mem_cons_of_mem q hx))]
      simp

theorem monitorLoop_notify_le_one (jobId : String) (pollInterval : Int)
    (jobEnqueued : Bool) (traceOut : Option String) (sendOk : Bool)
    (l : List (Option String)) :
    ((monitorLoop jobId pollInterval jobEnqueued traceOut sendOk l).getD []).countP
        isNotifyEvent ≤ 1 := by
  induction l with
  | nil => simp [monitorLoop]
  | cons q rest ih =>
    simp only [monitorLoop]
    split
    · simp [isNotifyEvent, List.countP_cons]
    · cases hr : monitorLoop jobId pollInterval jobEnqueued traceOut sendOk rest with
      | none => simp
      | some evs =>
        rw [hr] at ih
        simpa [List.countP_cons, isNotifyEvent] using ih

/-! ## C1: completion is detected exactly on a `'C'` or missing status -/

/-- C1: when the first status query confirms the job enqueued, the monitor
notifies exactly when a later poll reports status `'C'` or no status at all:
for the first such poll the run terminates with one sleep of the configured
interval per preceding non-terminal poll followed by the single notification;
and while no poll satisfies either condition the run never completes within
the observed polls (it is still sleeping and re-polling). -/
theorem monitor_completes_exactly_on_terminal_poll
    (jobId : String) (pollInterval : Int) (traceOut : Option String) (sendOk : Bool)
    (q0 qt : Option String) (pre post rest : List (Option String))
    (h0 : (get_job_status q0).2 ≠ none)
    (hpre : ∀ q ∈ pre, ¬ IsTerminalStatus (get_job_status q).2)
    (hqt : IsTerminalStatus (get_job_status qt).2)
    (hrest : ∀ q ∈ rest, ¬ IsTerminalStatus (get_job_status q).2) :
    monitor_job jobId pollInterval traceOut sendOk (q0 :: (pre ++ qt :: post))
      = some (pre.map (fun _ => MEvent.sleep pollInterval)
          ++ [MEvent.notify jobId (get_job_status qt).1 (get_exit_status traceOut),
              MEvent.log (send_notification_log jobId sendOk)])
    ∧ monitor_job jobId pollInterval traceOut sendOk (q0 :: rest) = none := by
  constructor
  · simp only [monitor_job]
    rw [if_neg h0]
    exact monitorLoop_terminal jobId pollInterval traceOut sendOk pre qt post hpre hqt
  · simp only [monitor_job]
    rw [if_neg h0]
    exact monitorLoop_none jobId pollInterval traceOut sendOk rest hrest

/-- Witness for C1: two pending polls then a `'C'` poll give one sleep-poll
cycle per pending poll and a single notification; without a terminal poll the
run does not complete. -/
theorem monitor_completes_exactly_on_terminal_poll_witness :
    monitor_job "42" 60 none true
        [some "job_state = R", some "job_state = R", some "job_state = C"]
      = some [MEvent.sleep 60, MEvent.notify "42" none none,
              MEvent.log "Notification sent for job 42"]
    ∧ monitor_job "42" 60 none true [some "job_state = R", some "job_state = R"] = none := by
  have h := monitor_completes_exactly_on_terminal_poll "42" 60 none true
      (some "job_state = R") (some "job_state = C")
      [some "job_state = R"] [] [some "job_state = R"]
      (by decide) (by decide) (by decide) (by decide)
  exact ⟨h.1.trans (by decide), h.2⟩

/-! ## C2: a job never seen in the queue exits without notifying -/

/-- C2: if the very first status query returns no status, `monitor_job`
returns immediately with an empty event trace — in particular the notifier
invocation count is zero. -/
theorem monitor_first_query_no_status_exits
    (jobId : String) (pollInterval : Int) (traceOut : Option String) (sendOk : Bool)
    (q0 : Option String) (rest : List (Option String))
    (h0 : (get_job_status q0).2 = none) :
    monitor_job jobId pollInterval traceOut sendOk (q0 :: rest) = some []
    ∧ notifyCount (monitor_job jobId pollInterval traceOut sendOk (q0 :: rest)) = 0 := by
  have h : monitor_job jobId pollInterval traceOut sendOk (q0 :: rest) = some [] := by
    simp only [monitor_job]
    rw [if_pos h0]
  exact ⟨h, by rw [notifyCount, h]; rfl⟩

/-- Witness for C2: a failed first query exits at once with zero
notifications, even though later polls would have reported completion. -/
theorem monitor_first_query_no_status_exits_witness :
    monitor_job "42" 60 none true [none, some "job_state = C"] = some []
    ∧ notifyCount (monitor_job "42" 60 none true [none, some "job_state = C"]) = 0 :=
  monitor_first_query_no_status_exits "42" 60 none true none [some "job_state = C"] rfl

/-! ## C4: at most one notification send attempt per run -/

/-- C4: over any complete or partial monitoring run — whatever the poll
outcomes, the trace query outcome and the send outcome — the number of
notification send attempts is at most one; after the single attempt the loop
breaks unconditionally, so the send outcome cannot cause a retry. -/
theorem at_most_one_notification
    (jobId : String) (pollInterval : Int) (traceOut : Option String) (sendOk : Bool)
    (polls : List (Option String)) :
    notifyCount (monitor_job jobId pollInterval traceOut sendOk polls) ≤ 1 := by
  cases polls with
  | nil => simp [monitor_job, notifyCount]
  | cons q rest =>
    simp only [monitor_job, notifyCount]
    split
    · simp
    · exact monitorLoop_notify_le_one jobId pollInterval true traceOut sendOk rest

/-- Witness for C4 at a concrete completed run with a failing send. -/
theorem at_most_one_notification_witness :
    notifyCount (monitor_job "42" 60 none false
        [some "job_state = R", some "job_state = C", some "job_state = C"]) ≤ 1 :=
  at_most_one_notification "42" 60 none false
    [some "job_state = R", some "job_state = C", some "job_state = C"]

/-! ## C3: a query failure while `Pending` is NOT absorbed

The claim says a single status query timeout/error after the job is confirmed
`Pending` is treated as "no data this poll" and the loop continues.  In the
code, `_get_job_status` returns `(None, None)` on timeout or exception, and
the loop condition `status == 'C' or (job_enqueued and status is None)`
(monitor.py line 62) is then satisfied, so the monitor transitions to
`Terminal` and notifies on that very poll. -/

/-- C3 counterexample: first poll confirms the job pending (`job_state = R`);
the next poll's query fails (timeout/exception, modelled by `none`); the run
terminates immediately with a notification — the loop does not continue and
the failure is not absorbed. -/
theorem pending_query_failure_notifies_cex :
    monitor_job "42" 60 none true [some "job_state = R", none]
      = some [MEvent.notify "42" none none, MEvent.log "Notification sent for job 42"]
    ∧ notifyCount (monitor_job "42" 60 none true [some "job_state = R", none]) = 1 := by
  constructor <;> decide

/-- C3 amended: once the job is confirmed enqueued, a status query failure on
a poll is indistinguishable from the job having disappeared: the monitor
transitions to `Terminal` on that poll and sends the notification (with job
name `None`), instead of absorbing the failure and continuing to poll. -/
theorem pending_query_failure_triggers_terminal
    (jobId : String) (pollInterval : Int) (traceOut : Option String) (sendOk : Bool)
    (q0 : Option String) (pre rest : List (Option String))
    (h0 : (get_job_status q0).2 ≠ none)
    (hpre : ∀ q ∈ pre, ¬ IsTerminalStatus (get_job_status q).2) :
    monitor_job jobId pollInterval traceOut sendOk (q0 :: (pre ++ none :: rest))
      = some (pre.map (fun _ => MEvent.sleep pollInterval)
          ++ [MEvent.notify jobId none (get_exit_status traceOut),
              MEvent.log (send_notification_log jobId sendOk)]) := by
  simp only [monitor_job]
  rw [if_neg h0]
  exact monitorLoop_terminal jobId pollInterval traceOut sendOk pre none rest hpre (Or.inr rfl)

/-- Witness for the amended C3: one pending poll, then a failed query, then a
sleep-notify-free tail that is never reached. -/
theorem pending_query_failure_triggers_terminal_witness :
    monitor_job "42" 30 none false
        [some "job_state = R", some "job_state = R", none, some "job_state = R"]
      = some [MEvent.sleep 30, MEvent.notify "42" none none,
              MEvent.log "Failed to send notification for job 42"] := by
  have h := pending_query_failure_triggers_terminal "42" 30 none false
      (some "job_state = R") [some "job_state = R"] [some "job_state = R"]
      (by decide) (by decide)
  exact h.trans (by decide)

/-! ## C10: a job that disappears is notified with job name `None` -/

/-- C10: when the monitor reaches `Terminal` because the final poll returned
no job data at all (the job disappeared from the queue), the notification is
built from that final poll's job name, i.e. `None` — even though earlier
polls (whose outputs are unconstrained here and may well have carried
`Job_Name` lines) returned the job's actual name — and the message renders
the name as `"Unknown"`. -/
theorem disappearance_notification_unknown_name
    (jobId : String) (pollInterval : Int) (traceOut : Option String) (sendOk : Bool)
    (q0 qf : Option String) (pre : List (Option String))
    (h0 : (get_job_status q0).2 ≠ none)
    (hpre : ∀ q ∈ pre, ¬ IsTerminalStatus (get_job_status q).2)
    (hqf : get_job_status qf = (none, none)) :
    monitor_job jobId pollInterval traceOut sendOk (q0 :: (pre ++ [qf]))
      = some (pre.map (fun _ => MEvent.sleep pollInterval)
          ++ [MEvent.notify jobId none (get_exit_status traceOut),
              MEvent.log (send_notification_log jobId sendOk)])
    ∧ jobNameDisplay none = "Unknown"
    ∧ messageSubject jobId none
        = "PBS Job Completed: Unknown (Job ID: " ++ jobId ++ ")" := by
  refine ⟨?_, rfl, rfl⟩
  simp only [monitor_job]
  rw [if_neg h0]
  have h := monitorLoop_terminal jobId pollInterval traceOut sendOk pre qf []
      hpre (by rw [hqf]; exact Or.inr rfl)
  rw [h, hqf]

/-- Witness for C10: the first poll reports the actual job name `myjob`, the
final poll finds the job gone (empty qstat output), and the notification
carries job name `None`, displayed `"Unknown"`. -/
theorem disappearance_notification_unknown_name_witness :
    monitor_job "42" 60 none true
        [some "Job_Name = \"myjob\"\njob_state = R", some ""]
      = some [MEvent.notify "42" none none, MEvent.log "Notification sent for job 42"]
    ∧ jobNameDisplay none = "Unknown"
    ∧ messageSubject "42" none = "PBS Job Completed: Unknown (Job ID: " ++ "42" ++ ")" := by
  have h := disappearance_notification_unknown_name "42" 60 none true
      (some "Job_Name = \"myjob\"\njob_state = R") (some "") []
      (by decide) (by decide) (by decide)
  exact ⟨h.1.trans (by decide), h.2.1, h.2.2⟩

/-! ## C7: exit-status recovery -/

theorem exitStatusFromLines_none (lines : List String)
    (h : ∀ line ∈ lines, hasSub "Exit_status".data line.data = false
        ∨ (pySplitWs (pyStrip line)).length < 3) :
    exitStatusFromLines lines = none := by
  induction lines with
  | nil => rfl
  | cons line rest ih =>
    have hrest := ih (fun x hx => h x (List.mem_cons_of_mem line hx))
    cases htok : hasSub "Exit_status".data line.data with
    | false => simp [exitStatusFromLines, htok, hrest]
    | true =>
      have hlen : (pySplitWs (pyStrip line)).length < 3 := by
        rcases h line (List.mem_cons_self line rest) with hl | hl
        · rw [htok] at hl; cases hl
        · exact hl
      have hnot : ¬ 3 ≤ (pySplitWs (pyStrip line)).length := Nat.not_le.mpr hlen
      simp [exitStatusFromLines, htok, hnot, hrest]

theorem exitStatusFromLines_found (pre : List String) (line : String) (post : List String)
    (hpre : ∀ l ∈ pre, hasSub "Exit_status".data l.data = false
        ∨ (pySplitWs (pyStrip l)).length < 3)
    (htok : hasSub "Exit_status".data line.data = true)
    (hlen : 3 ≤ (pySplitWs (pyStrip line)).length) :
    exitStatusFromLines (pre ++ line :: post)
      = some ((pySplitWs (pyStrip line)).getD 2 "") := by
  induction pre with
  | nil => simp [exitStatusFromLines, htok, hlen]
  | cons l pre ih =>
    have hrec := ih (fun x hx => hpre x (List.mem_cons_of_mem l hx))
    cases htokl : hasSub "Exit_status".data l.data with
    | false => simp [exitStatusFromLines, htokl, hrec]
    | true =>
      have hl : (pySplitWs (pyStrip l)).length < 3 := by
        rcases hpre l (List.mem_cons_self l pre) with h | h
        · rw [htokl] at h; cases h
        · exact h
      have hnot : ¬ 3 ≤ (pySplitWs (pyStrip l)).length := Nat.not_le.mpr hl
      simp [exitStatusFromLines, htokl, hnot, hrec]

/-- C7: exit-status recovery from the history query.  A failed query yields
`None`; if every line of the output lacks the `Exit_status` token or has
fewer than three whitespace-delimited fields the result is `None`; the first
line containing the token with at least three fields yields its third field;
and a `Terminal` transition whose history query failed still produces the
notification, with an unknown (`None`) exit status. -/
theorem exit_status_recovery_spec :
    get_exit_status none = none
    ∧ (∀ stdout : String,
        (∀ line ∈ pySplit stdout '\n',
            hasSub "Exit_status".data line.data = false
            ∨ (pySplitWs (pyStrip line)).length < 3) →
        get_exit_status (some stdout) = none)
    ∧ (∀ (stdout line : String) (pre post : List String),
        pySplit stdout '\n' = pre ++ line :: post →
        hasSub "Exit_status".data stdout.data = true →
        (∀ l ∈ pre, hasSub "Exit_status".data l.data = false
            ∨ (pySplitWs (pyStrip l)).length < 3) →
        hasSub "Exit_status".data line.data = true →
        3 ≤ (pySplitWs (pyStrip line)).length →
        get_exit_status (some stdout) = some ((pySplitWs (pyStrip line)).getD 2 ""))
    ∧ (∀ (jobId : String) (pollInterval : Int) (sendOk : Bool) (q0 qt : Option String),
        (get_job_status q0).2 ≠ none →
        IsTerminalStatus (get_job_status qt).2 →
        monitor_job jobId pollInterval none sendOk [q0, qt]
          = some [MEvent.notify jobId (get_job_status qt).1 none,
                  MEvent.log (send_notification_log jobId sendOk)]) := by
  refine ⟨rfl, ?_, ?_, ?_⟩
  · intro stdout h
    simp only [get_exit_status]
    split
    · exact exitStatusFromLines_none (pySplit stdout '\n') h
    · rfl
  · intro stdout line pre post hsplit houter hpre htok hlen
    simp only [get_exit_status, houter, if_true]
    rw [hsplit]
    exact exitStatusFromLines_found pre line post hpre htok hlen
  · intro jobId pollInterval sendOk q0 qt h0 hqt
    simp only [monitor_job]
    rw [if_neg h0]
    have h := monitorLoop_terminal jobId pollInterval none sendOk [] qt []
        (by simp) hqt
    simpa [get_exit_status] using h

/-- Witness for C7: a short line containing the token is skipped, the next
token line's third field is returned; a token-free output yields `None`; a
completed job whose history query failed is still notified, with exit status
`None`. -/
theorem exit_status_recovery_spec_witness :
    get_exit_status (some "Exit_status x\na b Exit_status=0") = some "Exit_status=0"
    ∧ get_exit_status (some "nothing to see\n") = none
    ∧ monitor_job "7" 60 none true [some "job_state = R", some "job_state = C"]
      = some [MEvent.notify "7" none none, MEvent.log "Notification sent for job 7"] := by
  refine ⟨?_, ?_, ?_⟩
  · have h := exit_status_recovery_spec.2.2.1 "Exit_status x\na b Exit_status=0"
      "a b Exit_status=0" ["Exit_status x"] [] (by decide) (by decide) (by decide)
      (by decide) (by decide)
    exact h.trans (by decide)
  · exact exit_status_recovery_spec.2.1 "nothing to see\n" (by decide)
  · have h := exit_status_recovery_spec.2.2.2 "7" 60 true
      (some "job_state = R") (some "job_state = C") (by decide) (by decide)
    exact h.trans (by decide)

/-! ## C8: configuration loading -/

theorem beginsMatch_append_self (n t : List Char) : beginsMatch n (n ++ t) = true := by
  induction n with
  | nil => rfl
  | cons c cs ih => simp [beginsMatch, ih]

theorem hasSub_of_append (n s t : List Char) : hasSub n (s ++ n ++ t) = true := by
  induction s with
  | nil =>
    cases hn : n with
    | nil =>
      cases t with
      | nil => rfl
      | cons x xs => simp [hasSub, beginsMatch]
    | cons m ms =>
      have hb := beginsMatch_append_self (m :: ms) t
      simp only [List.cons_append] at hb
      simp [hasSub, hb]
  | cons x xs ih =>
    have hshape : (x :: xs) ++ n ++ t = x :: (xs ++ n ++ t) := by simp
    rw [hshape]
    simp only [hasSub, ih, Bool.or_true]

theorem joinComma_mem_infix (param : String) (l : List String) (h : param ∈ l) :
    ∃ s t, (joinComma l).data = s ++ param.data ++ t := by
  induction l with
  | nil => cases h
  | cons x xs ih =>
    cases xs with
    | nil =>
      rcases List.mem_singleton.mp h with rfl
      exact ⟨[], [], by simp [joinComma]⟩
    | cons y ys =>
      rcases List.mem_cons.mp h with rfl | hmem
      · refine ⟨[], (", " ++ joinComma (y :: ys)).data, ?_⟩
        show (param ++ ", " ++ joinComma (y :: ys)).data = _
        rw [strData_append, strData_append, strData_append, List.nil_append,
            List.append_assoc]
      · rcases ih hmem with ⟨s, t, hst⟩
        refine ⟨(x ++ ", ").data ++ s, t, ?_⟩
        show (x ++ ", " ++ joinComma (y :: ys)).data = _
        rw [strData_append, hst]
        simp

theorem find?_append_of_none {α : Type} (f : α → Bool) (l1 l2 : List α)
    (h : l1.find? f = none) : (l1 ++ l2).find? f = l2.find? f := by
  induction l1 with
  | nil => simp
  | cons a as ih =>
    cases hfa : f a with
    | true => rw [List.find?_cons_of_pos as hfa] at h; cases h
    | false =>
      have hfa' : ¬ f a = true := by simp [hfa]
      rw [List.find?_cons_of_neg as hfa'] at h
      rw [List.cons_append, List.find?_cons_of_neg (as ++ l2) hfa']
      exact ih h

theorem dictGet_append_of_none (l1 l2 : List (String × JVal)) (key : String)
    (h : dictGet l1 key = none) : dictGet (l1 ++ l2) key = dictGet l2 key := by
  unfold dictGet at h ⊢
  rw [find?_append_of_none _ l1 l2 (Option.map_eq_none.mp h)]

theorem dictGet_filtered_defaults_none (g : String × JVal → Bool) (param : String)
    (h1 : ("pbs_username" == param) = false)
    (h2 : ("poll_interval" == param) = false) :
    dictGet (DEFAULT_CONFIG.filter g) param = none := by
  simp only [DEFAULT_CONFIG, List.filter]
  cases g ("pbs_username", JVal.str "zpzheng") <;>
    cases g ("poll_interval", JVal.num 60) <;>
    simp [dictGet, List.find?, h1, h2]

/-- C8: configuration loading.  For every loaded JSON object and every
required parameter it lacks, `load_config` fails with a
`ConfigurationError` whose message names that parameter (hence the message
names all missing required keys); and a configuration carrying exactly the
five required keys loads successfully, with the default `pbs_username`
literal `"zpzheng"` and the default 60-second `poll_interval` filled in. -/
theorem config_loading_spec :
    (∀ (loaded : List (String × JVal)) (param : String),
        param ∈ REQUIRED_PARAMS → dictGet loaded param = none →
        ∃ msg, load_config loaded = Except.error msg
          ∧ occursWithin param msg = true)
    ∧ (∀ v1 v2 v3 v4 v5 : JVal,
        ∃ cfg,
          load_config [("smtp_server", v1), ("smtp_port", v2), ("smtp_user", v3),
              ("smtp_password", v4), ("recipient_email", v5)] = Except.ok cfg
          ∧ pbs_username cfg = JVal.str "zpzheng"
          ∧ poll_interval cfg = some 60) := by
  constructor
  · intro loaded param hmem hnone
    have hkeys : ("pbs_username" == param) = false ∧ ("poll_interval" == param) = false := by
      simp only [REQUIRED_PARAMS, List.mem_cons, List.not_mem_nil, or_false] at hmem
      rcases hmem with rfl | rfl | rfl | rfl | rfl <;> exact ⟨rfl, rfl⟩
    have hmerged : dictGet (mergedConfig loaded) param = none := by
      unfold mergedConfig
      rw [dictGet_append_of_none _ loaded param
            (dictGet_filtered_defaults_none _ param hkeys.1 hkeys.2)]
      exact hnone
    have hmiss : param ∈ missingParams loaded :=
      List.mem_filter.mpr ⟨hmem, by rw [hmerged]; rfl⟩
    have hne : (missingParams loaded).isEmpty = false := by
      cases hml : missingParams loaded with
      | nil => rw [hml] at hmiss; cases hmiss
      | cons a l => rfl
    refine ⟨"Missing required configuration parameters: "
        ++ joinComma (missingParams loaded), ?_, ?_⟩
    · unfold load_config
      rw [hne]
      rfl
    · rcases joinComma_mem_infix param (missingParams loaded) hmiss with ⟨s, t, hst⟩
      unfold occursWithin
      rw [strData_append, hst, ← List.append_assoc]
      exact hasSub_of_append param.data
        ("Missing required configuration parameters: ".data ++ s) t
  · intro v1 v2 v3 v4 v5
    exact ⟨_, rfl, rfl, rfl⟩

/-- Witness for C8: the empty configuration fails with a message naming
`smtp_server`; a configuration with exactly the required keys loads with the
default username and 60-second poll interval. -/
theorem config_loading_spec_witness :
    (∃ msg, load_config [] = Except.error msg
        ∧ occursWithin "smtp_server" msg = true)
    ∧ (∃ cfg, load_config [("smtp_server", JVal.str "smtp.example.org"),
          ("smtp_port", JVal.num 587), ("smtp_user", JVal.str "u@example.org"),
          ("smtp_password", JVal.str "hunter2"),
          ("recipient_email", JVal.str "r@example.org")] = Except.ok cfg
        ∧ pbs_username cfg = JVal.str "zpzheng"
        ∧ poll_interval cfg = some 60) :=
  ⟨config_loading_spec.1 [] "smtp_server" (by decide) rfl,
   config_loading_spec.2 (JVal.str "smtp.example.org") (JVal.num 587)
     (JVal.str "u@example.org") (JVal.str "hunter2") (JVal.str "r@example.org")⟩

end PBSMonitor
